import Mathlib

/-!
Verification of the customer scoring pipeline of `src/quick_start.py`
(portfolio-cltv): synthetic data generation, per-customer derived metrics,
segmentation, top-k / threshold filtering, and rule-based strategy
assignment.

Python floats are modelled as rationals; Python `round(x, k)` (round half
to even on the decimal-scaled value) is modelled exactly by `roundTo`.
The numpy draws are modelled as an abstract per-customer `Draws` record
whose components carry the support constraints of the distributions used
(`Draws.Valid`), and, for the determinism claim, as typed samplers applied
to a seeded sequence of raw uniform values consumed with an explicit
cursor in the order the source performs the calls.
-/

/-- Round half to even (Python's rounding of floats) of a rational to an
integer. -/
def roundHalfEven (x : ℚ) : ℤ :=
  if x - ⌊x⌋ < 1/2 then ⌊x⌋
  else if 1/2 < x - ⌊x⌋ then ⌊x⌋ + 1
  else if ⌊x⌋ % 2 = 0 then ⌊x⌋ else ⌊x⌋ + 1

/-- Python's `round(x, n)`: round half to even at `n` decimal places. -/
def roundTo (n : ℕ) (x : ℚ) : ℚ :=
  (roundHalfEven (x * 10 ^ n) : ℚ) / 10 ^ n

/-- The raw per-customer random draws of
`generate_sample_customer_data` (src/quick_start.py lines 86-108), in the
order the source draws them: acquisition offset (`np.random.randint(30,
1095)`), monthly spend (lognormal), the Poisson draw for frequency,
recency (exponential), email opens (binomial(20, 0.3)), support tickets
(Poisson), app sessions (Poisson), and the uniform churn-noise draw
(`np.random.random()`). -/
structure Draws where
  offset : ℕ
  monthly_spend : ℚ
  poisson_freq : ℕ
  recency : ℚ
  email_opens : ℕ
  support_tickets : ℕ
  app_sessions : ℕ
  noise : ℚ
deriving Repr, DecidableEq

/-- Support constraints of the numpy distributions used by the source:
`randint(30, 1095)` lies in `[30, 1095)`, lognormal values are positive,
exponential values are nonnegative, `binomial(n=20, ...)` is at most 20,
and `np.random.random()` lies in `[0, 1)`. -/
def Draws.Valid (d : Draws) : Prop :=
  30 ≤ d.offset ∧ d.offset < 1095 ∧ 0 < d.monthly_spend ∧ 0 ≤ d.recency ∧
    d.email_opens ≤ 20 ∧ 0 ≤ d.noise ∧ d.noise < 1

instance (d : Draws) : Decidable d.Valid := by
  unfold Draws.Valid
  infer_instance

/-- `frequency = np.random.poisson(lam=3) + 1` (line 90). -/
def frequency (d : Draws) : ℕ := d.poisson_freq + 1

/-- The five weighted terms of the churn score (lines 103-109).
`tenure_days` equals the acquisition offset: the two `datetime.now()`
calls happen within the same run, so `(now - acquisition_date).days`
reproduces the drawn offset. -/
def recencyTerm (d : Draws) : ℚ := 3/10 * min (d.recency / 90) 1

def tenureTerm (d : Draws) : ℚ := 1/5 * max 0 ((60 - (d.offset : ℚ)) / 60)

def frequencyTerm (d : Draws) : ℚ := 1/5 * max 0 ((5 - (frequency d : ℚ)) / 5)

def supportTerm (d : Draws) : ℚ := 1/10 * min ((d.support_tickets : ℚ) / 3) 1

def noiseTerm (d : Draws) : ℚ := 1/5 * d.noise

/-- `churn_score` of lines 103-109, before any rounding. -/
def churnScore (d : Draws) : ℚ :=
  recencyTerm d + tenureTerm d + frequencyTerm d + supportTerm d + noiseTerm d

/-- `predicted_lifespan = max(30, 365 * (1 - churn_score))` (line 112). -/
def predictedLifespan (score : ℚ) : ℚ := max 30 (365 * (1 - score))

/-- `clv = monthly_spend * (predicted_lifespan / 30) * (1 - churn_score * 0.5)`
(line 113), before rounding. -/
def clvRaw (d : Draws) : ℚ :=
  d.monthly_spend * (predictedLifespan (churnScore d) / 30) *
    (1 - churnScore d * (1/2))

/-- `avg_order_value = monthly_spend / frequency if frequency > 0 else 0`
(line 100), before rounding. -/
def avgOrderValue (spend : ℚ) (freq : ℕ) : ℚ :=
  if freq > 0 then spend / (freq : ℚ) else 0

/-- `risk_segment` thresholding (line 128): the source thresholds the
UNROUNDED `churn_score`, not the rounded `churn_probability` field. -/
def riskSegment (score : ℚ) : String :=
  if score > 7/10 then "High" else if score > 2/5 then "Medium" else "Low"

/-- Zero-padded customer id `f"CUST_{i+1:06d}"` (line 85). -/
def customerId (i : ℕ) : String :=
  let s := toString (i + 1)
  "CUST_" ++ String.mk (List.replicate (6 - s.length) '0') ++ s

/-- One synthetic customer record, the dict of lines 115-129.
`acquisition_date` is `now - offset` days; since `now` is a constant of
the run, the record's time content is fully carried by `tenure_days`. -/
structure CustomerRecord where
  customer_id : String
  tenure_days : ℕ
  monthly_spend : ℚ
  frequency : ℕ
  recency : ℚ
  avg_order_value : ℚ
  email_opens : ℕ
  support_tickets : ℕ
  app_sessions : ℕ
  churn_probability : ℚ
  predicted_clv : ℚ
  risk_segment : String
deriving Repr, DecidableEq

/-- The record built for customer index `i` from its draws
(lines 85-129 of `generate_sample_customer_data`). -/
def mkCustomerRecord (i : ℕ) (d : Draws) : CustomerRecord where
  customer_id := customerId i
  tenure_days := d.offset
  monthly_spend := roundTo 2 d.monthly_spend
  frequency := frequency d
  recency := roundTo 1 d.recency
  avg_order_value := roundTo 2 (avgOrderValue d.monthly_spend (frequency d))
  email_opens := d.email_opens
  support_tickets := d.support_tickets
  app_sessions := d.app_sessions
  churn_probability := roundTo 3 (churnScore d)
  predicted_clv := roundTo 2 (clvRaw d)
  risk_segment := riskSegment (churnScore d)

/-! ### The seeded random source

`np.random.seed(42)` (line 77) fixes the whole pseudo-random sequence; the
generator then consumes it through stateful `np.random.*` calls. We model
the seeded sequence as a function `ℕ → ℚ` of raw uniform values together
with a cursor, and each `np.random.*` call as a typed sampler applied to
the raw value at the cursor, advancing the cursor by one. -/

/-- The seeded stream of raw pseudo-random values plus the cursor of the
global numpy random state. -/
structure RandState where
  seq : ℕ → ℚ
  pos : ℕ

/-- Consume one raw value from the seeded sequence. -/
def rdraw (s : RandState) : ℚ × RandState :=
  (s.seq s.pos, ⟨s.seq, s.pos + 1⟩)

/-- The typed distribution samplers behind the `np.random.*` calls of
lines 86-108, one per call site, each consuming one raw value. -/
structure Samplers where
  randint_30_1095 : ℚ → ℕ
  lognormal_mean55_sigma1 : ℚ → ℚ
  poisson_lam3 : ℚ → ℕ
  exponential_scale30 : ℚ → ℚ
  binomial_20_p03 : ℚ → ℕ
  poisson_lam05 : ℚ → ℕ
  poisson_lam10 : ℚ → ℕ
  uniform01 : ℚ → ℚ

/-- The eight draws of one loop iteration (lines 86-108), performed in
the source's order: acquisition offset, monthly spend, frequency Poisson,
recency, email opens, support tickets, app sessions, churn noise. -/
def drawCustomer (S : Samplers) (s : RandState) : Draws × RandState :=
  let (u1, s1) := rdraw s
  let (u2, s2) := rdraw s1
  let (u3, s3) := rdraw s2
  let (u4, s4) := rdraw s3
  let (u5, s5) := rdraw s4
  let (u6, s6) := rdraw s5
  let (u7, s7) := rdraw s6
  let (u8, s8) := rdraw s7
  (⟨S.randint_30_1095 u1, S.lognormal_mean55_sigma1 u2, S.poisson_lam3 u3,
    S.exponential_scale30 u4, S.binomial_20_p03 u5, S.poisson_lam05 u6,
    S.poisson_lam10 u7, S.uniform01 u8⟩, s8)

/-- The generation loop (lines 83-129): `n` remaining customers, `i` the
index of the next one, threading the random state. -/
def generateAux (S : Samplers) : ℕ → ℕ → RandState → List CustomerRecord
  | 0, _, _ => []
  | n + 1, i, s =>
    let p := drawCustomer S s
    mkCustomerRecord i p.1 :: generateAux S n (i + 1) p.2

/-- `generate_sample_customer_data`, parameterized by the customer count
(10000 in the source) and by the seeded sequence (seed 42 in the source),
starting from cursor 0. -/
def generateSampleCustomerData (S : Samplers) (seq : ℕ → ℚ) (n : ℕ) :
    List CustomerRecord :=
  generateAux S n 0 ⟨seq, 0⟩

/-! ### Retention strategy selector (lines 174-207) -/

/-- The first-match rule chain of lines 185-192. -/
def selectStrategy (c : CustomerRecord) : String :=
  if c.recency > 60 then "Re-engagement email series with personalized offers"
  else if c.support_tickets > 2 then "Proactive customer success outreach"
  else if c.email_opens < 5 then "Multi-channel communication (SMS, push notifications)"
  else "Loyalty program enrollment with exclusive benefits"

/-- One entry of the strategies list (lines 194-199). -/
structure Strategy where
  customer_id : String
  clv : ℚ
  churn_risk : ℚ
  strategy : String
deriving Repr, DecidableEq

/-- `generate_retention_strategies` (lines 174-207): the first 5 High-risk
customers in generation order (`high_risk.head(5)`), each mapped through
the rule chain. -/
def generateRetentionStrategies (df : List CustomerRecord) : List Strategy :=
  ((df.filter fun c => c.risk_segment == "High").take 5).map fun c =>
    ⟨c.customer_id, c.predicted_clv, c.churn_probability, selectStrategy c⟩

/-! ### Segmentation and aggregation engine (lines 138-172) -/

/-- The rows grouped under one risk segment by
`df.groupby(..)` (line 144). -/
def segmentRecords (df : List CustomerRecord) (seg : String) :
    List CustomerRecord :=
  df.filter fun c => c.risk_segment == seg

/-- `df.nlargest(k, 'predicted_clv')` (line 155): stable descending sort
by `predicted_clv`, first `k` rows.  pandas `nlargest` keeps the first
occurrence among ties, which is exactly a stable sort. -/
def topK (df : List CustomerRecord) (k : ℕ) : List CustomerRecord :=
  (df.mergeSort fun a b => b.predicted_clv ≤ a.predicted_clv).take k

/-- pandas `Series.quantile(q)` with the default linear interpolation:
with the values sorted ascending and `h = (n - 1) * q`, the result is
`s[⌊h⌋] + (h - ⌊h⌋) * (s[⌊h⌋ + 1] - s[⌊h⌋])`.  On an empty series pandas
yields NaN, which compares false against everything; we return 0, which
is never used because filtering an empty collection is empty anyway. -/
def quantileLinear (q : ℚ) (xs : List ℚ) : ℚ :=
  let s := xs.mergeSort fun a b => a ≤ b
  match s.length with
  | 0 => 0
  | m + 1 =>
    let h : ℚ := (m : ℚ) * q
    let j : ℕ := ⌊h⌋.toNat
    let g : ℚ := h - (j : ℚ)
    s.getD j 0 + g * (s.getD (j + 1) 0 - s.getD j 0)

/-- The at-risk high-value filter of lines 161-162: `predicted_clv`
strictly above the 0.8 quantile of all `predicted_clv` values and
`churn_probability` strictly above 0.6. -/
def atRiskValuable (df : List CustomerRecord) : List CustomerRecord :=
  df.filter fun c =>
    decide (quantileLinear (4/5) (df.map fun r => r.predicted_clv) < c.predicted_clv) &&
      decide ((3/5 : ℚ) < c.churn_probability)

/-- The dict returned by `perform_clv_analysis` (lines 167-172). -/
structure AnalysisResults where
  total_customers : ℕ
  avg_clv : ℚ
  high_risk_count : ℕ
  at_risk_value : ℚ
deriving Repr, DecidableEq

/-- The analysis on a frame whose columns exist, i.e. a nonempty
collection (every field access of lines 144-172 then succeeds).
`avg_clv` is the pandas mean, sum over count; the rational division is
faithful for every nonempty collection, the only ones this function is
reached on through `performClvAnalysisChecked` (on the empty collection
this unchecked function returns 0 where the pandas mean would be NaN). -/
def performClvAnalysis (df : List CustomerRecord) : AnalysisResults where
  total_customers := df.length
  avg_clv := (df.map fun c => c.predicted_clv).sum / (df.length : ℚ)
  high_risk_count := (segmentRecords df "High").length
  at_risk_value := ((atRiskValuable df).map fun c => c.predicted_clv).sum

/-- `perform_clv_analysis` with the pandas failure mode made explicit.
For an empty record list the generator's `pd.DataFrame(customer_data)`
is the schemaless `pd.DataFrame([])` — a frame with no columns — so the
analysis's first column access, `df.groupby('risk_segment')` at line
144, raises KeyError and the analysis aborts before producing any
aggregate; `none` models that raised exception.  On a nonempty frame
every column exists and the analysis returns its dict. -/
def performClvAnalysisChecked : List CustomerRecord → Option AnalysisResults
  | [] => none
  | df => some (performClvAnalysis df)

/-! ### Helper lemmas -/

theorem roundHalfEven_nonneg (x : ℚ) (hx : 0 ≤ x) : 0 ≤ roundHalfEven x := by
  have hf : (0 : ℤ) ≤ ⌊x⌋ := Int.floor_nonneg.mpr hx
  unfold roundHalfEven
  split_ifs <;> omega

theorem roundTo_nonneg (n : ℕ) (x : ℚ) (hx : 0 ≤ x) : 0 ≤ roundTo n x := by
  unfold roundTo
  have h1 : (0 : ℚ) ≤ (roundHalfEven (x * 10 ^ n) : ℚ) := by
    exact_mod_cast roundHalfEven_nonneg _ (by positivity)
  positivity

theorem recencyTerm_le (d : Draws) : recencyTerm d ≤ 3/10 := by
  have h := min_le_right (d.recency / 90) 1
  unfold recencyTerm
  linarith

theorem tenureTerm_le_fifth (d : Draws) : tenureTerm d ≤ 1/5 := by
  have h0 : (0 : ℚ) ≤ (d.offset : ℚ) := Nat.cast_nonneg _
  have h : max 0 ((60 - (d.offset : ℚ)) / 60) ≤ 1 :=
    max_le (by norm_num) (by linarith)
  unfold tenureTerm
  linarith

theorem frequencyTerm_le_fifth (d : Draws) : frequencyTerm d ≤ 1/5 := by
  have h0 : (0 : ℚ) ≤ (frequency d : ℚ) := Nat.cast_nonneg _
  have h : max 0 ((5 - (frequency d : ℚ)) / 5) ≤ 1 :=
    max_le (by norm_num) (by linarith)
  unfold frequencyTerm
  linarith

theorem supportTerm_le (d : Draws) : supportTerm d ≤ 1/10 := by
  have h := min_le_right ((d.support_tickets : ℚ) / 3) 1
  unfold supportTerm
  linarith

theorem churnScore_le_one (d : Draws) (hnoise : d.noise ≤ 1) :
    churnScore d ≤ 1 := by
  have h1 := recencyTerm_le d
  have h2 := tenureTerm_le_fifth d
  have h3 := frequencyTerm_le_fifth d
  have h4 := supportTerm_le d
  have h5 : noiseTerm d ≤ 1/5 := by unfold noiseTerm; linarith
  have hs : churnScore d =
      recencyTerm d + tenureTerm d + frequencyTerm d + supportTerm d +
        noiseTerm d := rfl
  linarith

/-! ### C1: risk segment versus the stored churn probability -/

/-- A concrete draw vector with churn score exactly 0.7004: recency 90
(term 0.3), offset 60 (term 0), Poisson frequency draw 0 so frequency 1
(term 0.16), 3 support tickets (term 0.1), noise 0.702 (term 0.1404). -/
def cexDraws : Draws := ⟨60, 1, 0, 90, 10, 3, 0, 351/500⟩

/-- Constant samplers realizing `cexDraws` on any seeded sequence, so the
offending record arises in an actual generated collection. -/
def cexSamplers : Samplers :=
  ⟨fun _ => 60, fun _ => 1, fun _ => 0, fun _ => 90, fun _ => 10,
    fun _ => 3, fun _ => 0, fun _ => 351/500⟩

/-- C1 counterexample: in the one-record generated collection realizing
`cexDraws`, the record is segmented High (its pre-rounding churn score is
0.7004 > 0.7) while the stored `churn_probability` field is the rounded
value 0.700, which is not greater than 0.7 — so "High ⇔ stored
churn_probability > 0.7" fails on this record. -/
theorem risk_segment_rounded_boundary_cex :
    generateSampleCustomerData cexSamplers (fun _ => 0) 1 =
        [mkCustomerRecord 0 cexDraws] ∧
      (mkCustomerRecord 0 cexDraws).risk_segment = "High" ∧
      (mkCustomerRecord 0 cexDraws).churn_probability = 7/10 ∧
      ¬(7/10 < (mkCustomerRecord 0 cexDraws).churn_probability) := by
  refine ⟨rfl, ?_, ?_, ?_⟩
  · show riskSegment (churnScore cexDraws) = "High"
    norm_num [riskSegment, churnScore, recencyTerm, tenureTerm, frequencyTerm,
      supportTerm, noiseTerm, cexDraws, frequency, min_def, max_def]
  · show roundTo 3 (churnScore cexDraws) = 7/10
    norm_num [roundTo, roundHalfEven, churnScore, recencyTerm, tenureTerm,
      frequencyTerm, supportTerm, noiseTerm, cexDraws, frequency, min_def,
      max_def]
  · show ¬(7/10 < roundTo 3 (churnScore cexDraws))
    norm_num [roundTo, roundHalfEven, churnScore, recencyTerm, tenureTerm,
      frequencyTerm, supportTerm, noiseTerm, cexDraws, frequency, min_def,
      max_def]

/-- C1 (amended): `risk_segment` is a pure function of the PRE-ROUNDING
churn score: High iff score > 0.7, Medium iff 0.4 < score ≤ 0.7, Low iff
score ≤ 0.4; the stored `churn_probability` is that score rounded to 3
decimals, so the biconditional with the stored field can fail only at the
rounding boundaries (see the counterexample). -/
theorem risk_segment_consistency (i : ℕ) (d : Draws) :
    (mkCustomerRecord i d).churn_probability = roundTo 3 (churnScore d) ∧
    ((mkCustomerRecord i d).risk_segment = "High" ↔ 7/10 < churnScore d) ∧
    ((mkCustomerRecord i d).risk_segment = "Medium" ↔
      (2/5 < churnScore d ∧ churnScore d ≤ 7/10)) ∧
    ((mkCustomerRecord i d).risk_segment = "Low" ↔ churnScore d ≤ 2/5) := by
  refine ⟨rfl, ?_⟩
  have hseg : (mkCustomerRecord i d).risk_segment =
      riskSegment (churnScore d) := rfl
  rw [hseg]
  unfold riskSegment
  split_ifs with h1 h2
  · exact ⟨⟨fun _ => h1, fun _ => rfl⟩,
      ⟨fun hx => absurd hx (by decide),
       fun hx => absurd h1 (not_lt.mpr hx.2)⟩,
      ⟨fun hx => absurd hx (by decide),
       fun hx => absurd h1 (not_lt.mpr (hx.trans (by norm_num)))⟩⟩
  · exact ⟨⟨fun hx => absurd hx (by decide), fun hx => absurd hx h1⟩,
      ⟨fun _ => ⟨h2, not_lt.mp h1⟩, fun _ => rfl⟩,
      ⟨fun hx => absurd hx (by decide),
       fun hx => absurd h2 (not_lt.mpr hx)⟩⟩
  · exact ⟨⟨fun hx => absurd hx (by decide), fun hx => absurd hx h1⟩,
      ⟨fun hx => absurd hx (by decide), fun hx => absurd hx.1 h2⟩,
      ⟨fun _ => not_lt.mp h2, fun _ => rfl⟩⟩

/-! ### C7, C10: generator invariants -/

/-- A concrete valid draw vector used by witnesses. -/
def sampleDraws : Draws := ⟨100, 50, 2, 10, 6, 1, 12, 1/2⟩

theorem sampleDraws_valid : sampleDraws.Valid := by
  unfold Draws.Valid sampleDraws
  norm_num

/-- C7: every generated record has `frequency ≥ 1` (the Poisson draw plus
one), `tenure_days ≥ 0` (the acquisition offset is a nonnegative count of
days), and `email_opens ∈ [0, 20]` (binomial with n = 20). -/
theorem generated_record_invariants (i : ℕ) (d : Draws) (hv : d.Valid) :
    1 ≤ (mkCustomerRecord i d).frequency ∧
      0 ≤ (mkCustomerRecord i d).tenure_days ∧
      (mkCustomerRecord i d).email_opens ≤ 20 := by
  refine ⟨?_, Nat.zero_le _, ?_⟩
  · show 1 ≤ frequency d
    exact Nat.le_add_left 1 _
  · show d.email_opens ≤ 20
    exact hv.2.2.2.2.1

theorem generated_record_invariants_witness :
    1 ≤ (mkCustomerRecord 0 sampleDraws).frequency ∧
      0 ≤ (mkCustomerRecord 0 sampleDraws).tenure_days ∧
      (mkCustomerRecord 0 sampleDraws).email_opens ≤ 20 :=
  generated_record_invariants 0 sampleDraws sampleDraws_valid

/-- C10: for valid draws the five weighted churn terms are nonnegative
and bounded (recency by 0.3, support by 0.1, noise by 0.2, tenure by 0.1
because the offset is at least 30, frequency by 0.16 because frequency is
at least 1), so the pre-rounding churn score lies in [0, 1). -/
theorem churn_score_unit_interval (d : Draws) (hv : d.Valid) :
    0 ≤ recencyTerm d ∧ 0 ≤ tenureTerm d ∧ 0 ≤ frequencyTerm d ∧
      0 ≤ supportTerm d ∧ 0 ≤ noiseTerm d ∧
      recencyTerm d ≤ 3/10 ∧ supportTerm d ≤ 1/10 ∧ noiseTerm d ≤ 1/5 ∧
      tenureTerm d ≤ 1/10 ∧ frequencyTerm d ≤ 4/25 ∧
      0 ≤ churnScore d ∧ churnScore d < 1 := by
  obtain ⟨hoff, -, -, hrec, -, hn0, hn1⟩ := hv
  have hr0 : 0 ≤ recencyTerm d := by
    unfold recencyTerm
    have : (0 : ℚ) ≤ min (d.recency / 90) 1 :=
      le_min (by positivity) (by norm_num)
    linarith
  have ht0 : 0 ≤ tenureTerm d := by
    unfold tenureTerm
    have := le_max_left (0 : ℚ) ((60 - (d.offset : ℚ)) / 60)
    linarith
  have hf0 : 0 ≤ frequencyTerm d := by
    unfold frequencyTerm
    have := le_max_left (0 : ℚ) ((5 - (frequency d : ℚ)) / 5)
    linarith
  have hs0 : 0 ≤ supportTerm d := by
    unfold supportTerm
    have : (0 : ℚ) ≤ min ((d.support_tickets : ℚ) / 3) 1 :=
      le_min (by positivity) (by norm_num)
    linarith
  have hn0' : 0 ≤ noiseTerm d := by
    unfold noiseTerm
    linarith
  have hr1 := recencyTerm_le d
  have hs1 := supportTerm_le d
  have hnle : noiseTerm d ≤ 1/5 := by unfold noiseTerm; linarith
  have ht1 : tenureTerm d ≤ 1/10 := by
    have hoffQ : (30 : ℚ) ≤ (d.offset : ℚ) := by exact_mod_cast hoff
    have hmax : max 0 ((60 - (d.offset : ℚ)) / 60) ≤ 1/2 :=
      max_le (by norm_num) (by linarith)
    unfold tenureTerm
    linarith
  have hf1 : frequencyTerm d ≤ 4/25 := by
    have hfQ : (1 : ℚ) ≤ (frequency d : ℚ) := by
      exact_mod_cast Nat.le_add_left 1 d.poisson_freq
    have hmax : max 0 ((5 - (frequency d : ℚ)) / 5) ≤ 4/5 :=
      max_le (by norm_num) (by linarith)
    unfold frequencyTerm
    linarith
  have hnlt : noiseTerm d < 1/5 := by unfold noiseTerm; linarith
  have hsum : churnScore d =
      recencyTerm d + tenureTerm d + frequencyTerm d + supportTerm d +
        noiseTerm d := rfl
  refine ⟨hr0, ht0, hf0, hs0, hn0', hr1, hs1, hnle, ht1, hf1, ?_, ?_⟩
  · linarith
  · linarith

theorem churn_score_unit_interval_witness :
    0 ≤ churnScore sampleDraws ∧ churnScore sampleDraws < 1 :=
  ⟨(churn_score_unit_interval sampleDraws sampleDraws_valid).2.2.2.2.2.2.2.2.2.2.1,
   (churn_score_unit_interval sampleDraws sampleDraws_valid).2.2.2.2.2.2.2.2.2.2.2⟩

/-! ### C8: nonnegativity of the predicted CLV -/

/-- C8: the stored `predicted_clv` is the rounded value of
`monthly_spend * (predicted_lifespan / 30) * (1 - churn_score * 0.5)`
with `predicted_lifespan = max(30, 365 * (1 - churn_score))`, and it is
nonnegative whenever `monthly_spend ≥ 0` (the noise draw lies below 1, so
the churn score is at most 1 and the discount factor is at least 1/2). -/
theorem predicted_clv_nonneg (i : ℕ) (d : Draws)
    (hspend : 0 ≤ d.monthly_spend) (hnoise : d.noise ≤ 1) :
    (mkCustomerRecord i d).predicted_clv = roundTo 2 (clvRaw d) ∧
      0 ≤ clvRaw d ∧ 0 ≤ (mkCustomerRecord i d).predicted_clv := by
  have hscore := churnScore_le_one d hnoise
  have hlife : (30 : ℚ) ≤ predictedLifespan (churnScore d) :=
    le_max_left _ _
  have hdisc : (0 : ℚ) ≤ 1 - churnScore d * (1/2) := by linarith
  have hclv : 0 ≤ clvRaw d := by
    unfold clvRaw
    have h30 : (0 : ℚ) ≤ predictedLifespan (churnScore d) / 30 := by
      positivity
    positivity
  exact ⟨rfl, hclv, roundTo_nonneg 2 _ hclv⟩

theorem predicted_clv_nonneg_witness :
    0 ≤ clvRaw sampleDraws ∧
      0 ≤ (mkCustomerRecord 0 sampleDraws).predicted_clv :=
  ⟨(predicted_clv_nonneg 0 sampleDraws (by norm_num [sampleDraws])
      (by norm_num [sampleDraws])).2.1,
   (predicted_clv_nonneg 0 sampleDraws (by norm_num [sampleDraws])
      (by norm_num [sampleDraws])).2.2⟩

/-! ### C9: guarded average order value -/

/-- C9: `avg_order_value` is `monthly_spend / frequency` when frequency
is positive and 0 when frequency is 0; every generated record has
frequency ≥ 1, so the zero branch is unreachable there, and the stored
field is the division result rounded to 2 decimals. -/
theorem avg_order_value_guarded (spend : ℚ) (freq : ℕ) (i : ℕ) (d : Draws) :
    (0 < freq → avgOrderValue spend freq = spend / (freq : ℚ)) ∧
      (freq = 0 → avgOrderValue spend freq = 0) ∧
      0 < frequency d ∧
      (mkCustomerRecord i d).avg_order_value =
        roundTo 2 (d.monthly_spend / (frequency d : ℚ)) := by
  refine ⟨fun h => ?_, fun h => ?_, Nat.succ_pos _, ?_⟩
  · unfold avgOrderValue
    rw [if_pos h]
  · unfold avgOrderValue
    rw [if_neg (by omega)]
  · show roundTo 2 (avgOrderValue d.monthly_spend (frequency d)) = _
    have h : frequency d > 0 := Nat.succ_pos _
    unfold avgOrderValue
    simp [h]

theorem avg_order_value_guarded_witness :
    avgOrderValue 10 2 = 5 ∧ avgOrderValue 10 0 = 0 := by
  have h1 := (avg_order_value_guarded 10 2 0 sampleDraws).1 (by norm_num)
  have h2 := (avg_order_value_guarded 10 0 0 sampleDraws).2.1 rfl
  rw [h1, h2]
  norm_num

/-! ### C3: retention strategy selector -/

/-- A concrete High-risk record matching the spec's worked example:
recency 70, no support tickets, 10 email opens. -/
def exampleRecord : CustomerRecord :=
  ⟨"CUST_000001", 100, 50, 3, 70, 50/3, 10, 0, 12, 3/4, 100, "High"⟩

/-- C3: the selector works on the first at most 5 High-risk customers in
generation order, assigns each exactly one of the four fixed strings, and
evaluates the rules first-match in the fixed priority order
recency > 60, support_tickets > 2, email_opens < 5, default; in
particular recency 70, 0 tickets, 10 opens takes rule 1. -/
theorem retention_strategies_first_match (df : List CustomerRecord)
    (c : CustomerRecord) :
    (generateRetentionStrategies df).length =
        min 5 (df.filter fun r => r.risk_segment == "High").length ∧
      (∀ s ∈ generateRetentionStrategies df,
        s.strategy = "Re-engagement email series with personalized offers" ∨
        s.strategy = "Proactive customer success outreach" ∨
        s.strategy = "Multi-channel communication (SMS, push notifications)" ∨
        s.strategy = "Loyalty program enrollment with exclusive benefits") ∧
      (60 < c.recency →
        selectStrategy c = "Re-engagement email series with personalized offers") ∧
      (c.recency ≤ 60 → 2 < c.support_tickets →
        selectStrategy c = "Proactive customer success outreach") ∧
      (c.recency ≤ 60 → c.support_tickets ≤ 2 → c.email_opens < 5 →
        selectStrategy c = "Multi-channel communication (SMS, push notifications)") ∧
      (c.recency ≤ 60 → c.support_tickets ≤ 2 → 5 ≤ c.email_opens →
        selectStrategy c = "Loyalty program enrollment with exclusive benefits") ∧
      (c.recency = 70 → c.support_tickets = 0 → c.email_opens = 10 →
        selectStrategy c = "Re-engagement email series with personalized offers") := by
  refine ⟨?_, ?_, ?_, ?_, ?_, ?_, ?_⟩
  · unfold generateRetentionStrategies
    rw [List.length_map, List.length_take]
  · intro s hs
    unfold generateRetentionStrategies at hs
    rw [List.mem_map] at hs
    obtain ⟨r, -, rfl⟩ := hs
    show selectStrategy r = _ ∨ selectStrategy r = _ ∨
      selectStrategy r = _ ∨ selectStrategy r = _
    unfold selectStrategy
    split_ifs <;> tauto
  · intro h
    unfold selectStrategy
    rw [if_pos h]
  · intro h1 h2
    unfold selectStrategy
    rw [if_neg (not_lt.mpr h1), if_pos h2]
  · intro h1 h2 h3
    unfold selectStrategy
    rw [if_neg (not_lt.mpr h1), if_neg (by omega), if_pos h3]
  · intro h1 h2 h3
    unfold selectStrategy
    rw [if_neg (not_lt.mpr h1), if_neg (by omega), if_neg (by omega)]
  · intro h1 h2 h3
    unfold selectStrategy
    rw [h1, if_pos (by norm_num)]

theorem retention_strategies_first_match_witness :
    selectStrategy exampleRecord =
      "Re-engagement email series with personalized offers" :=
  (retention_strategies_first_match [] exampleRecord).2.2.2.2.2.2 rfl rfl rfl

/-! ### C4, C5: aggregation engine -/

/-- C4: membership in the at-risk-valuable subset is exactly
`predicted_clv` strictly above the 0.8 quantile of all CLV values and
`churn_probability` strictly above 0.6, and the analysis reports the
subset's CLV sum (its count being the subset's length). -/
theorem at_risk_valuable_characterization (df : List CustomerRecord)
    (c : CustomerRecord) :
    (c ∈ atRiskValuable df ↔
        c ∈ df ∧
          quantileLinear (4/5) (df.map fun r => r.predicted_clv) <
            c.predicted_clv ∧
          3/5 < c.churn_probability) ∧
      (performClvAnalysis df).at_risk_value =
        ((atRiskValuable df).map fun r => r.predicted_clv).sum := by
  constructor
  · unfold atRiskValuable
    rw [List.mem_filter]
    simp only [Bool.and_eq_true, decide_eq_true_eq]
  · rfl

/-- C5: the code contradicts the claim at its one input.  On the empty
collection (N = 0) the analysis does not report zero/empty aggregates:
the frame built from an empty record list has no columns, so the first
column access raises KeyError and the analysis aborts (modelled by
`none`); even on a typed empty frame the pandas mean of line 169 would
be NaN, not 0.  On every nonempty collection the analysis succeeds and
returns its dict. -/
theorem empty_collection_analysis_raises :
    performClvAnalysisChecked [] = none ∧
      ∀ (c : CustomerRecord) (df : List CustomerRecord),
        performClvAnalysisChecked (c :: df) =
          some (performClvAnalysis (c :: df)) :=
  ⟨rfl, fun _ _ => rfl⟩

/-! ### C6: top-K listing -/

/-- C6: the top-K listing is the stable descending sort by
`predicted_clv` truncated to K entries: it has length min(K, N) and is
sorted descending, for every collection and every K (K = 10 in the
reference flow). -/
theorem topk_sorted_descending (df : List CustomerRecord) (k : ℕ) :
    (topK df k).length = min k df.length ∧
      (topK df k).Pairwise fun a b => b.predicted_clv ≤ a.predicted_clv := by
  constructor
  · unfold topK
    rw [List.length_take, List.length_mergeSort]
  · have h := @List.sorted_mergeSort CustomerRecord
      (fun a b => decide (b.predicted_clv ≤ a.predicted_clv))
      (fun a b c h1 h2 => by simp_all; linarith)
      (fun a b => by
        simpa using le_total b.predicted_clv a.predicted_clv) df
    have h2 : (df.mergeSort fun a b =>
        decide (b.predicted_clv ≤ a.predicted_clv)).Pairwise
          (fun a b => b.predicted_clv ≤ a.predicted_clv) := by
      simpa using h
    exact List.Pairwise.sublist (List.take_sublist _ _) h2

/-! ### C2: determinism of the generator -/

theorem generateAux_length (S : Samplers) :
    ∀ (n i : ℕ) (s : RandState), (generateAux S n i s).length = n := by
  intro n
  induction n with
  | zero => intro i s; rfl
  | succ n ih =>
    intro i s
    show (mkCustomerRecord i _ :: generateAux S n (i + 1) _).length = n + 1
    rw [List.length_cons, ih]

/-- Evaluating the eight stateful draws of one loop iteration on the
seeded sequence: they read positions `pos` through `pos + 7`, in the
fixed order of the source's `np.random.*` calls, and leave the cursor at
`pos + 8`. -/
theorem drawCustomer_eval (S : Samplers) (seq : ℕ → ℚ) (pos : ℕ) :
    drawCustomer S ⟨seq, pos⟩ =
      (⟨S.randint_30_1095 (seq pos), S.lognormal_mean55_sigma1 (seq (pos + 1)),
        S.poisson_lam3 (seq (pos + 2)), S.exponential_scale30 (seq (pos + 3)),
        S.binomial_20_p03 (seq (pos + 4)), S.poisson_lam05 (seq (pos + 5)),
        S.poisson_lam10 (seq (pos + 6)), S.uniform01 (seq (pos + 7))⟩,
        ⟨seq, pos + 8⟩) := rfl

theorem generateAux_seq_congr (S : Samplers) (seq1 seq2 : ℕ → ℚ) :
    ∀ (n i pos : ℕ),
      (∀ m, pos ≤ m → m < pos + 8 * n → seq1 m = seq2 m) →
      generateAux S n i ⟨seq1, pos⟩ = generateAux S n i ⟨seq2, pos⟩ := by
  intro n
  induction n with
  | zero => intro i pos h; rfl
  | succ n ih =>
    intro i pos h
    rw [show generateAux S (n + 1) i ⟨seq1, pos⟩ =
          mkCustomerRecord i (drawCustomer S ⟨seq1, pos⟩).1 ::
            generateAux S n (i + 1) (drawCustomer S ⟨seq1, pos⟩).2 from rfl,
        show generateAux S (n + 1) i ⟨seq2, pos⟩ =
          mkCustomerRecord i (drawCustomer S ⟨seq2, pos⟩).1 ::
            generateAux S n (i + 1) (drawCustomer S ⟨seq2, pos⟩).2 from rfl,
        drawCustomer_eval, drawCustomer_eval]
    have e0 : seq1 pos = seq2 pos := h pos (Nat.le_refl _) (by omega)
    have e1 : seq1 (pos + 1) = seq2 (pos + 1) := h _ (by omega) (by omega)
    have e2 : seq1 (pos + 2) = seq2 (pos + 2) := h _ (by omega) (by omega)
    have e3 : seq1 (pos + 3) = seq2 (pos + 3) := h _ (by omega) (by omega)
    have e4 : seq1 (pos + 4) = seq2 (pos + 4) := h _ (by omega) (by omega)
    have e5 : seq1 (pos + 5) = seq2 (pos + 5) := h _ (by omega) (by omega)
    have e6 : seq1 (pos + 6) = seq2 (pos + 6) := h _ (by omega) (by omega)
    have e7 : seq1 (pos + 7) = seq2 (pos + 7) := h _ (by omega) (by omega)
    rw [e0, e1, e2, e3, e4, e5, e6, e7]
    exact congrArg (List.cons _)
      (ih (i + 1) (pos + 8) fun m hm1 hm2 => h m (by omega) (by omega))

/-- C2: the generator is a pure function of the seed: two runs whose
seeded sequences agree on the `8 * N` values consumed (eight draws per
customer, in the fixed order acquisition offset, monthly spend,
frequency, recency, email opens, support tickets, app sessions, churn
noise) produce bit-identical collections of exactly N records; in
particular two runs with the same seed and the same N coincide. -/
theorem generator_deterministic (S : Samplers) (seq1 seq2 : ℕ → ℚ) (n : ℕ)
    (h : ∀ m, m < 8 * n → seq1 m = seq2 m) :
    generateSampleCustomerData S seq1 n = generateSampleCustomerData S seq2 n ∧
      (generateSampleCustomerData S seq1 n).length = n := by
  constructor
  · exact generateAux_seq_congr S seq1 seq2 n 0 0
      fun m hm1 hm2 => h m (by omega)
  · exact generateAux_length S n 0 _

/-- A seeded sequence that differs from the all-zero sequence only from
position 8 on; with one customer only the first 8 positions are read. -/
def seqA : ℕ → ℚ := fun k => if k < 8 then 0 else 1

def seqB : ℕ → ℚ := fun _ => 0

def constSamplers : Samplers :=
  ⟨fun _ => 60, fun u => u + 1, fun _ => 0, fun u => u, fun _ => 10,
    fun _ => 0, fun _ => 5, fun u => u⟩

theorem generator_deterministic_witness :
    generateSampleCustomerData constSamplers seqA 1 =
        generateSampleCustomerData constSamplers seqB 1 ∧
      (generateSampleCustomerData constSamplers seqA 1).length = 1 :=
  generator_deterministic constSamplers seqA seqB 1 fun m hm => by
    unfold seqA seqB
    rw [if_pos (by omega)]
